import Mathlib

/-
  Verification of the FaceAuth web service (app.py).

  The service is embedded shallowly:
  * the file system is a map from path to file content (bytes modelled as a
    String), with point updates and deletions;
  * the external DeepFace library (face extraction and 1:1 verification) and
    the base64 decoder are oracles carried in an `Env` record, each returning
    `Except` to model a raised exception;
  * the Flask session is a record of the keys the handler touches;
  * each request handler is a pure function from its inputs and the current
    state to a result record; `submit` additionally emits a trace of the
    externally visible steps it performs, in order, so that ordering
    properties can be stated.
-/

set_option maxHeartbeats 1000000

namespace FaceAuth

/-- The file system: a map from path to file content. `none` means the path
does not exist. -/
def FS : Type := String → Option String

/-- Write (create or overwrite) the file at path `p` with content `c`. -/
def FS.set (fs : FS) (p c : String) : FS := fun q => if q = p then some c else fs q

/-- Remove the file at path `p` (`os.remove` / the removal half of `os.replace`). -/
def FS.erase (fs : FS) (p : String) : FS := fun q => if q = p then none else fs q

@[simp] lemma FS.set_self (fs : FS) (p c : String) : FS.set fs p c p = some c := by
  simp [FS.set]

@[simp] lemma FS.set_ne (fs : FS) (p c q : String) (h : q ≠ p) :
    FS.set fs p c q = fs q := by
  simp [FS.set, h]

@[simp] lemma FS.erase_self (fs : FS) (p : String) : FS.erase fs p p = none := by
  simp [FS.erase]

@[simp] lemma FS.erase_ne (fs : FS) (p q : String) (h : q ≠ p) :
    FS.erase fs p q = fs q := by
  simp [FS.erase, h]

/-- The session keys the application reads or writes. A fresh (or cleared)
session has no keys. `permanent` models `session.permanent`. -/
structure SessionState where
  logged_in : Option Bool
  email : Option String
  permanent : Bool
deriving DecidableEq, Repr

/-- `session.clear()` leaves an empty session. -/
def SessionState.clear : SessionState := ⟨none, none, false⟩

/-- The dictionary returned by `DeepFace.verify`: the fields the handler
reads. `distance` is `none` when the key is absent (`result.get` then falls
back to its default). Distances are modelled as rationals. -/
structure VerifyResult where
  verified : Bool
  distance : Option ℚ
deriving DecidableEq, Repr

/-- The external world of one request: the base64 decoder, the DeepFace
calls (each may raise, modelled by `Except.error`), the hex string produced
by `os.urandom(4).hex()`, and whether the best-effort `os.remove` in the
`finally` block succeeds. The DeepFace oracles take the CONTENT of the file
at the path the code passes, since the library reads that file. -/
structure Env where
  b64decode : String → Except String String
  extractFacesCount : String → Except String Nat
  verify : String → String → Except String VerifyResult
  urandomHex : String
  removeOk : Bool

/-- Flash messages, one constructor per `flash(...)` call site in app.py,
with the data the message interpolates. -/
inductive Flash where
  /-- "Missing email, image, or mode." (error) -/
  | missingFields
  /-- "Could not decode captured image: ..." (error) -/
  | decodeError
  /-- "No face or multiple faces detected. Please recapture ..." (error) -/
  | faceDetectError
  /-- "You are already registered with this email. Try logging in." (info) -/
  | alreadyRegistered
  /-- "Registration successful! You are now logged in." (success) -/
  | registrationSuccess
  /-- "No registered face found for this email. Please register first." (error) -/
  | noRegisteredFace
  /-- "Welcome back, {email}!" (success) -/
  | welcomeBack (email : String)
  /-- "Face not recognized (similarity: {similarity}%). Try again ..." (error) -/
  | notRecognized (similarity : ℚ)
  /-- "Authentication error: ..." (error) -/
  | authError
  /-- "You need to log in first." (error) -/
  | loginRequired
  /-- "You have been logged out successfully." (info) -/
  | loggedOut
deriving DecidableEq, Repr

/-- The externally visible steps of `submit`, in the order the handler
performs them. -/
inductive Event where
  /-- decoding of the base64 payload -/
  | decodeImage
  /-- writing the decoded image to the temp file -/
  | writeTemp
  /-- the `DeepFace.extract_faces` call (inside `single_face_present`) -/
  | extractFacesCall
  /-- the `DeepFace.verify` call -/
  | verifyCall
  /-- `os.replace(temp_path, registered_path)` -/
  | replaceFile
  /-- the `finally` block attempting `os.remove(temp_path)` -/
  | removeTempAttempt
  /-- assignment of the session keys (`logged_in`, `email`, `permanent`) -/
  | setSession
deriving DecidableEq, Repr

/-- Where the HTTP response redirects. Rendering the dashboard only happens
after a redirect to it. -/
inductive Redirect where
  | home
  | dashboard
deriving DecidableEq, Repr

/-- The observable outcome of one `submit` request. -/
structure SubmitResult where
  fs : FS
  sess : SessionState
  flashes : List Flash
  redirect : Redirect
  trace : List Event

def STUDENTS_DIR : String := "students"

def MAX_FILE_AGE_DAYS : ℕ := 30

/-- Python `str.lower()` (ASCII case folding, as `Char.toLower` provides). -/
def pyLower (s : String) : String := ⟨s.data.map Char.toLower⟩

/-- Python `str.strip()` with no argument: drop whitespace from both ends. -/
def pyStrip (s : String) : String :=
  ⟨(((s.data.dropWhile Char.isWhitespace).reverse).dropWhile Char.isWhitespace).reverse⟩

/-- `s.strip().lower()`, the normalization applied to every submitted email. -/
def pyStripLower (s : String) : String := pyLower (pyStrip s)

/-- Python `str.replace` restricted to a one-character pattern (the only way
the source calls it): substitute `rep` for every occurrence of `pat`. -/
def replaceChar (pat : Char) (rep : List Char) : List Char → List Char
  | [] => []
  | c :: rest => (if c = pat then rep else [c]) ++ replaceChar pat rep rest

/-- `s.replace(pat, rep)` for a one-character `pat`. -/
def pyReplace1 (s : String) (pat : Char) (rep : String) : String :=
  ⟨replaceChar pat rep.data s.data⟩

/-- Python `s.startswith(pre)`. -/
def pyStartsWith (s pre : String) : Bool := pre.data.isPrefixOf s.data

/-- `email.strip().lower().replace("@", "_at_").replace(".", "_")`. -/
def sanitize_email (email : String) : String :=
  pyReplace1 (pyReplace1 (pyStripLower email) '@' "_at_") '.' "_"

/-- `os.path.join(STUDENTS_DIR, f"\x7bfname\x7d.jpg")`. -/
def registeredPath (fname : String) : String :=
  STUDENTS_DIR ++ "/" ++ fname ++ ".jpg"

/-- `os.path.join(STUDENTS_DIR, f"temp_\x7bfname\x7d_\x7bhex\x7d.jpg")`. -/
def tempPath (fname : String) (hexStr : String) : String :=
  STUDENTS_DIR ++ "/temp_" ++ fname ++ "_" ++ hexStr ++ ".jpg"

/-- `single_face_present`: `True` iff `DeepFace.extract_faces` returns
exactly one face; any exception from the library is caught and yields
`False`. The argument is the oracle result of the extraction call. -/
def single_face_present (extractResult : Except String Nat) : Bool :=
  match extractResult with
  | .ok n => n == 1
  | .error _ => false

/-- Break a character list at the first comma: the part before it and the
part after it, or `none` when no comma occurs. -/
def breakAtComma : List Char → Option (List Char × List Char)
  | [] => none
  | c :: rest =>
    if c = ',' then some ([], rest)
    else
      match breakAtComma rest with
      | none => none
      | some (pre, post) => some (c :: pre, post)

/-- `image_data_b64.split(",", 1)`: `none` when the string holds no comma
(the `ValueError` case), otherwise the part before the first comma and the
rest. -/
def splitOnce (s : String) : Option (String × String) :=
  match breakAtComma s.data with
  | none => none
  | some (pre, post) => some (⟨pre⟩, ⟨post⟩)

/-- Outcome of `save_base64_image`. -/
inductive SaveResult where
  /-- no comma in the data URL: `ValueError` raised before the file is
  opened, nothing written -/
  | invalidFormat
  /-- `open(path, "wb")` already created the (empty) file, then
  `b64decode(encoded)` raised -/
  | decodeFailed
  /-- the decoded bytes were written to the file -/
  | saved (content : String)
deriving DecidableEq, Repr

/-- `save_base64_image`: split the data URL on the first comma, base64-decode
the payload and write it. -/
def save_base64_image (dec : String → Except String String)
    (image_data_b64 : String) : SaveResult :=
  match splitOnce image_data_b64 with
  | none => .invalidFormat
  | some (_, encoded) =>
    match dec encoded with
    | .error _ => .decodeFailed
    | .ok c => .saved c

/-- `cleanup_old_files`: remove every file in the students directory whose
name starts with `temp_` and whose mtime is older than
`MAX_FILE_AGE_DAYS * 86400` seconds before `now`. The directory is the list
of (filename, mtime) pairs; times are rationals (Python floats in seconds). -/
def cleanup_old_files (now : ℚ) (dir : List (String × ℚ)) : List (String × ℚ) :=
  dir.filter fun f =>
    !(pyStartsWith f.1 "temp_" && decide (f.2 < now - (MAX_FILE_AGE_DAYS : ℚ) * 86400))

/-- The `finally` block of `submit`: if the temp file still exists, attempt
`os.remove` on it (the attempt itself may fail and is swallowed; `removeOk`
says whether it succeeds). -/
def finalizeSubmit (removeOk : Bool) (temp_path : String) (fs : FS)
    (tr : List Event) (sess : SessionState) (fl : List Flash) (r : Redirect) :
    SubmitResult :=
  if (fs temp_path).isSome then
    ⟨if removeOk then FS.erase fs temp_path else fs, sess, fl, r,
      tr ++ [.removeTempAttempt]⟩
  else
    ⟨fs, sess, fl, r, tr⟩

/-- The `/submit` handler. `mode`, `emailOpt`, `imageDataOpt` are
`request.form.get(...)` (`none` when the field is absent); `fs` and `sess`
are the file system and session before the request. -/
def submit (env : Env) (fs : FS) (sess : SessionState)
    (mode emailOpt imageDataOpt : Option String) : SubmitResult :=
  let email := pyStripLower (emailOpt.getD "")
  let image_data := imageDataOpt.getD ""
  if email = "" ∨ (mode ≠ some "login" ∧ mode ≠ some "register") ∨ image_data = "" then
    ⟨fs, sess, [.missingFields], .home, []⟩
  else
    let fname := sanitize_email email
    let registered_path := registeredPath fname
    let temp_path := tempPath fname env.urandomHex
    match save_base64_image env.b64decode image_data with
    | .invalidFormat =>
      ⟨fs, sess, [.decodeError], .home, [.decodeImage]⟩
    | .decodeFailed =>
      -- the `with open` created the empty temp file before b64decode raised;
      -- this exit path precedes the try/finally, so no cleanup happens here
      ⟨FS.set fs temp_path "", sess, [.decodeError], .home, [.decodeImage]⟩
    | .saved content =>
      let fs1 := FS.set fs temp_path content
      let tr := [Event.decodeImage, Event.writeTemp, Event.extractFacesCall]
      if single_face_present (env.extractFacesCount content) = false then
        finalizeSubmit env.removeOk temp_path fs1 tr sess [.faceDetectError] .home
      else if mode = some "register" then
        if (fs1 registered_path).isSome then
          finalizeSubmit env.removeOk temp_path fs1 tr sess [.alreadyRegistered] .home
        else
          let fs2 := FS.set (FS.erase fs1 temp_path) registered_path content
          finalizeSubmit env.removeOk temp_path fs2 (tr ++ [.replaceFile, .setSession])
            ⟨some true, some email, true⟩ [.registrationSuccess] .dashboard
      else
        -- mode == "login"
        if (fs1 registered_path).isNone then
          finalizeSubmit env.removeOk temp_path fs1 tr sess [.noRegisteredFace] .home
        else
          match env.verify content ((fs1 registered_path).getD "") with
          | .error _ =>
            finalizeSubmit env.removeOk temp_path fs1 (tr ++ [.verifyCall]) sess
              [.authError] .home
          | .ok r =>
            if r.verified then
              finalizeSubmit env.removeOk temp_path fs1 (tr ++ [.verifyCall, .setSession])
                ⟨some true, some email, true⟩ [.welcomeBack email] .dashboard
            else
              let distance := r.distance.getD 1
              finalizeSubmit env.removeOk temp_path fs1 (tr ++ [.verifyCall]) sess
                [.notRecognized (max 0 ((1 - distance) * 100))] .home

/-- Response of `/check_email`. -/
inductive CheckEmailResponse where
  /-- `jsonify(\x7b"error": "Email required"\x7d), 400` -/
  | badRequest
  /-- `jsonify(\x7b"registered": b\x7d)` -/
  | ok (registered : Bool)
deriving DecidableEq, Repr

/-- The `/check_email` handler. -/
def check_email (fs : FS) (emailOpt : Option String) : CheckEmailResponse :=
  let email := pyStripLower (emailOpt.getD "")
  if email = "" then .badRequest
  else .ok ((fs (registeredPath (sanitize_email email))).isSome)

/-- Python truthiness of `session.get("logged_in")`: an absent key is falsy. -/
def truthy : Option Bool → Bool
  | some b => b
  | none => false

/-- Result of the `/dashboard` handler. -/
inductive DashResult where
  /-- `render_template("dashboard.html", email=session.get("email"))` -/
  | render (email : Option String)
  /-- `redirect(url_for("home"))` -/
  | redirectHome
deriving DecidableEq, Repr

/-- The `/dashboard` handler: result together with the flashes it emits. -/
def dashboard (sess : SessionState) : DashResult × List Flash :=
  if truthy sess.logged_in then (.render sess.email, [])
  else (.redirectHome, [.loginRequired])

/-- The `/logout` handler: clears the whole session, flashes, redirects home. -/
def logout (_sess : SessionState) : SessionState × List Flash :=
  (SessionState.clear, [.loggedOut])

/-- Face-API events: the `extract_faces` and `verify` calls. -/
def isFaceAPI : Event → Bool
  | .extractFacesCall => true
  | .verifyCall => true
  | _ => false

/-- The step-5 file-system updates of the spec's step list: moving the
temp file to the registered reference, or removing the temp file. (The
initial write of the temp file is the step list's own step 2.) -/
def isFileUpdate : Event → Bool
  | .replaceFile => true
  | .removeTempAttempt => true
  | _ => false

def isSetSession : Event → Bool
  | .setSession => true
  | _ => false

def isReplaceFile : Event → Bool
  | .replaceFile => true
  | _ => false

def isRemoveTemp : Event → Bool
  | .removeTempAttempt => true
  | _ => false

/-- Every occurrence of a `q`-event in the trace has an earlier `p`-event. -/
def precededBy (tr : List Event) (q p : Event → Bool) : Prop :=
  ∀ i : Fin tr.length, q (tr.get i) = true →
    ∃ j : Fin tr.length, j.1 < i.1 ∧ p (tr.get j) = true

instance (tr : List Event) (q p : Event → Bool) : Decidable (precededBy tr q p) := by
  unfold precededBy; infer_instance

/- ------------------------------------------------------------------ -/
/-  Helper lemmas                                                      -/
/- ------------------------------------------------------------------ -/

lemma registeredPath_ne_tempPath (fname hex : String) :
    registeredPath fname ≠ tempPath fname hex := by
  intro h
  have h2 := congrArg String.length h
  simp only [registeredPath, tempPath, STUDENTS_DIR, String.length_append] at h2
  have e1 : String.length "students" = 8 := rfl
  have e2 : String.length "/" = 1 := rfl
  have e3 : String.length ".jpg" = 4 := rfl
  have e4 : String.length "/temp_" = 6 := rfl
  have e5 : String.length "_" = 1 := rfl
  rw [e1, e2, e3, e4, e5] at h2
  omega

lemma save_saved_ne_empty {dec : String → Except String String} {s c : String}
    (h : save_base64_image dec s = .saved c) : s ≠ "" := by
  intro he
  subst he
  have h0 : splitOnce "" = none := rfl
  rw [save_base64_image, h0] at h
  exact SaveResult.noConfusion h

lemma submit_guard_neg {mode : Option String} {email image : String}
    (hne : email ≠ "")
    (hmode : mode = some "login" ∨ mode = some "register")
    (himg : image ≠ "") :
    ¬(email = "" ∨ (mode ≠ some "login" ∧ mode ≠ some "register") ∨ image = "") := by
  rcases hmode with h | h <;> simp [hne, himg, h]

lemma finalizeSubmit_of_some {fs : FS} {temp_path : String}
    (h : (fs temp_path).isSome = true)
    (removeOk : Bool) (tr : List Event) (sess : SessionState) (fl : List Flash)
    (r : Redirect) :
    finalizeSubmit removeOk temp_path fs tr sess fl r =
      ⟨if removeOk then FS.erase fs temp_path else fs, sess, fl, r,
        tr ++ [.removeTempAttempt]⟩ := by
  rw [finalizeSubmit, if_pos h]

lemma finalizeSubmit_of_none {fs : FS} {temp_path : String}
    (h : fs temp_path = none)
    (removeOk : Bool) (tr : List Event) (sess : SessionState) (fl : List Flash)
    (r : Redirect) :
    finalizeSubmit removeOk temp_path fs tr sess fl r = ⟨fs, sess, fl, r, tr⟩ := by
  rw [finalizeSubmit, if_neg]
  simp [h]

@[simp] lemma finalizeSubmit_sess (removeOk : Bool) (temp_path : String) (fs : FS)
    (tr : List Event) (sess : SessionState) (fl : List Flash) (r : Redirect) :
    (finalizeSubmit removeOk temp_path fs tr sess fl r).sess = sess := by
  rw [finalizeSubmit]; split <;> rfl

@[simp] lemma finalizeSubmit_redirect (removeOk : Bool) (temp_path : String) (fs : FS)
    (tr : List Event) (sess : SessionState) (fl : List Flash) (r : Redirect) :
    (finalizeSubmit removeOk temp_path fs tr sess fl r).redirect = r := by
  rw [finalizeSubmit]; split <;> rfl

@[simp] lemma finalizeSubmit_flashes (removeOk : Bool) (temp_path : String) (fs : FS)
    (tr : List Event) (sess : SessionState) (fl : List Flash) (r : Redirect) :
    (finalizeSubmit removeOk temp_path fs tr sess fl r).flashes = fl := by
  rw [finalizeSubmit]; split <;> rfl

lemma finalizeSubmit_fs_temp {temp_path : String} (fs : FS)
    (tr : List Event) (sess : SessionState) (fl : List Flash) (r : Redirect) :
    (finalizeSubmit true temp_path fs tr sess fl r).fs temp_path = none := by
  rw [finalizeSubmit]
  split
  · simp [FS.erase]
  · next h => simpa using h

/-- Characterization of a login request that passed decoding and the
single-face check: the outcome only depends on whether a reference file is
stored and on what the verify oracle answers. -/
lemma submit_login_run (env : Env) (fs : FS) (sess : SessionState)
    (emailOpt imageDataOpt : Option String) (email content : String)
    (hemail : pyStripLower (emailOpt.getD "") = email)
    (hne : email ≠ "")
    (hsave : save_base64_image env.b64decode (imageDataOpt.getD "") = .saved content)
    (hface : env.extractFacesCount content = .ok 1) :
    submit env fs sess (some "login") emailOpt imageDataOpt =
      (match fs (registeredPath (sanitize_email email)) with
       | none =>
         ⟨if env.removeOk
            then FS.erase (FS.set fs (tempPath (sanitize_email email) env.urandomHex) content)
              (tempPath (sanitize_email email) env.urandomHex)
            else FS.set fs (tempPath (sanitize_email email) env.urandomHex) content,
          sess, [.noRegisteredFace], .home,
          [.decodeImage, .writeTemp, .extractFacesCall, .removeTempAttempt]⟩
       | some ref =>
         match env.verify content ref with
         | .error _ =>
           ⟨if env.removeOk
              then FS.erase (FS.set fs (tempPath (sanitize_email email) env.urandomHex) content)
                (tempPath (sanitize_email email) env.urandomHex)
              else FS.set fs (tempPath (sanitize_email email) env.urandomHex) content,
            sess, [.authError], .home,
            [.decodeImage, .writeTemp, .extractFacesCall, .verifyCall, .removeTempAttempt]⟩
         | .ok r =>
           if r.verified then
             ⟨if env.removeOk
                then FS.erase (FS.set fs (tempPath (sanitize_email email) env.urandomHex) content)
                  (tempPath (sanitize_email email) env.urandomHex)
                else FS.set fs (tempPath (sanitize_email email) env.urandomHex) content,
              ⟨some true, some email, true⟩, [.welcomeBack email], .dashboard,
              [.decodeImage, .writeTemp, .extractFacesCall, .verifyCall, .setSession,
                .removeTempAttempt]⟩
           else
             ⟨if env.removeOk
                then FS.erase (FS.set fs (tempPath (sanitize_email email) env.urandomHex) content)
                  (tempPath (sanitize_email email) env.urandomHex)
                else FS.set fs (tempPath (sanitize_email email) env.urandomHex) content,
              sess, [.notRecognized (max 0 ((1 - r.distance.getD 1) * 100))], .home,
              [.decodeImage, .writeTemp, .extractFacesCall, .verifyCall,
                .removeTempAttempt]⟩) := by
  have himg := save_saved_ne_empty hsave
  have hg := submit_guard_neg hne (Or.inl rfl) himg
  have hne2 := registeredPath_ne_tempPath (sanitize_email email) env.urandomHex
  have hsp : single_face_present (env.extractFacesCount content) = true := by
    rw [hface]; rfl
  have hsome : ((FS.set fs (tempPath (sanitize_email email) env.urandomHex) content)
      (tempPath (sanitize_email email) env.urandomHex)).isSome = true := by
    rw [FS.set_self]; rfl
  simp only [submit, hemail, hsave]
  rw [if_neg hg, hsp]
  rw [if_neg (by simp : ¬(true = false))]
  rw [if_neg (by simp : ¬(some "login" = some "register"))]
  rw [FS.set_ne fs _ content _ hne2]
  cases href : fs (registeredPath (sanitize_email email)) with
  | none =>
    rw [if_pos (by rfl)]
    rw [finalizeSubmit_of_some hsome]
    simp
  | some ref =>
    rw [if_neg (by simp)]
    simp only [Option.getD_some]
    cases hv : env.verify content ref with
    | error e =>
      rw [finalizeSubmit_of_some hsome]
      simp
    | ok r =>
      cases hrv : r.verified with
      | true => simp [hrv, finalizeSubmit_of_some hsome]
      | false => simp [hrv, finalizeSubmit_of_some hsome]

/-- Characterization of a register request that passed decoding and the
single-face check: the outcome only depends on whether a reference file is
already stored. -/
lemma submit_register_run (env : Env) (fs : FS) (sess : SessionState)
    (emailOpt imageDataOpt : Option String) (email content : String)
    (hemail : pyStripLower (emailOpt.getD "") = email)
    (hne : email ≠ "")
    (hsave : save_base64_image env.b64decode (imageDataOpt.getD "") = .saved content)
    (hface : env.extractFacesCount content = .ok 1) :
    submit env fs sess (some "register") emailOpt imageDataOpt =
      (if (fs (registeredPath (sanitize_email email))).isSome then
        ⟨if env.removeOk
           then FS.erase (FS.set fs (tempPath (sanitize_email email) env.urandomHex) content)
             (tempPath (sanitize_email email) env.urandomHex)
           else FS.set fs (tempPath (sanitize_email email) env.urandomHex) content,
         sess, [.alreadyRegistered], .home,
         [.decodeImage, .writeTemp, .extractFacesCall, .removeTempAttempt]⟩
      else
        ⟨FS.set
           (FS.erase (FS.set fs (tempPath (sanitize_email email) env.urandomHex) content)
             (tempPath (sanitize_email email) env.urandomHex))
           (registeredPath (sanitize_email email)) content,
         ⟨some true, some email, true⟩, [.registrationSuccess], .dashboard,
         [.decodeImage, .writeTemp, .extractFacesCall, .replaceFile, .setSession]⟩) := by
  have himg := save_saved_ne_empty hsave
  have hg := submit_guard_neg hne (Or.inr rfl) himg
  have hne2 := registeredPath_ne_tempPath (sanitize_email email) env.urandomHex
  have hsp : single_face_present (env.extractFacesCount content) = true := by
    rw [hface]; rfl
  have hsome : ((FS.set fs (tempPath (sanitize_email email) env.urandomHex) content)
      (tempPath (sanitize_email email) env.urandomHex)).isSome = true := by
    rw [FS.set_self]; rfl
  have htempnone :
      (FS.set
        (FS.erase (FS.set fs (tempPath (sanitize_email email) env.urandomHex) content)
          (tempPath (sanitize_email email) env.urandomHex))
        (registeredPath (sanitize_email email)) content)
        (tempPath (sanitize_email email) env.urandomHex) = none := by
    rw [FS.set_ne _ _ _ _ (Ne.symm hne2), FS.erase_self]
  simp only [submit, hemail, hsave]
  rw [if_neg hg, hsp]
  rw [if_neg (by simp : ¬(true = false))]
  rw [if_pos trivial]
  rw [FS.set_ne fs _ content _ hne2]
  cases href : (fs (registeredPath (sanitize_email email))).isSome with
  | true =>
    rw [if_pos rfl, if_pos rfl]
    rw [finalizeSubmit_of_some hsome]
    simp
  | false =>
    rw [if_neg (by simp), if_neg (by simp)]
    rw [finalizeSubmit_of_none htempnone]
    simp

/-- Characterization of a submit request (either mode) that passed decoding
but failed the single-face check. -/
lemma submit_noface_run (env : Env) (fs : FS) (sess : SessionState)
    (mode emailOpt imageDataOpt : Option String) (email content : String)
    (hemail : pyStripLower (emailOpt.getD "") = email)
    (hne : email ≠ "")
    (hmode : mode = some "login" ∨ mode = some "register")
    (hsave : save_base64_image env.b64decode (imageDataOpt.getD "") = .saved content)
    (hface : single_face_present (env.extractFacesCount content) = false) :
    submit env fs sess mode emailOpt imageDataOpt =
      ⟨if env.removeOk
         then FS.erase (FS.set fs (tempPath (sanitize_email email) env.urandomHex) content)
           (tempPath (sanitize_email email) env.urandomHex)
         else FS.set fs (tempPath (sanitize_email email) env.urandomHex) content,
       sess, [.faceDetectError], .home,
       [.decodeImage, .writeTemp, .extractFacesCall, .removeTempAttempt]⟩ := by
  have himg := save_saved_ne_empty hsave
  have hg := submit_guard_neg hne hmode himg
  have hsome : ((FS.set fs (tempPath (sanitize_email email) env.urandomHex) content)
      (tempPath (sanitize_email email) env.urandomHex)).isSome = true := by
    rw [FS.set_self]; rfl
  simp only [submit, hemail, hsave]
  rw [if_neg hg, hface]
  rw [if_pos rfl]
  rw [finalizeSubmit_of_some hsome]
  simp

/-- Characterization of a submit request whose data URL has no comma. -/
lemma submit_invalid_run (env : Env) (fs : FS) (sess : SessionState)
    (mode emailOpt imageDataOpt : Option String) (email : String)
    (hemail : pyStripLower (emailOpt.getD "") = email)
    (hne : email ≠ "")
    (hmode : mode = some "login" ∨ mode = some "register")
    (himg : imageDataOpt.getD "" ≠ "")
    (hsv : save_base64_image env.b64decode (imageDataOpt.getD "") = .invalidFormat) :
    submit env fs sess mode emailOpt imageDataOpt =
      ⟨fs, sess, [.decodeError], .home, [.decodeImage]⟩ := by
  have hg := submit_guard_neg hne hmode himg
  simp only [submit, hemail, hsv]
  rw [if_neg hg]

/-- Characterization of a submit request whose base64 payload fails to
decode after the temp file was opened. -/
lemma submit_decodefail_run (env : Env) (fs : FS) (sess : SessionState)
    (mode emailOpt imageDataOpt : Option String) (email : String)
    (hemail : pyStripLower (emailOpt.getD "") = email)
    (hne : email ≠ "")
    (hmode : mode = some "login" ∨ mode = some "register")
    (himg : imageDataOpt.getD "" ≠ "")
    (hsv : save_base64_image env.b64decode (imageDataOpt.getD "") = .decodeFailed) :
    submit env fs sess mode emailOpt imageDataOpt =
      ⟨FS.set fs (tempPath (sanitize_email email) env.urandomHex) "", sess,
        [.decodeError], .home, [.decodeImage]⟩ := by
  have hg := submit_guard_neg hne hmode himg
  simp only [submit, hemail, hsv]
  rw [if_neg hg]

lemma single_face_present_eq_ok {e : Except String Nat}
    (h : single_face_present e = true) : e = .ok 1 := by
  cases e with
  | ok n =>
    simp only [single_face_present, beq_iff_eq] at h
    rw [h]
  | error m => simp [single_face_present] at h

/- ------------------------------------------------------------------ -/
/-  Concrete environments and file systems used to exercise the model  -/
/- ------------------------------------------------------------------ -/

/-- Oracle where decoding succeeds, one face is found, verification accepts. -/
def envAccept : Env :=
  ⟨fun _ => .ok "IMG", fun _ => .ok 1, fun _ _ => .ok ⟨true, some (1/10)⟩,
    "deadbeef", true⟩

/-- Oracle where decoding succeeds, one face is found, verification rejects
with distance 1/2. -/
def envReject : Env :=
  ⟨fun _ => .ok "IMG", fun _ => .ok 1, fun _ _ => .ok ⟨false, some (1/2)⟩,
    "deadbeef", true⟩

/-- Oracle where the verify call raises. -/
def envVerifyBoom : Env :=
  ⟨fun _ => .ok "IMG", fun _ => .ok 1, fun _ _ => .error "boom", "deadbeef", true⟩

/-- Oracle where the face-extraction call raises. -/
def envNoFace : Env :=
  ⟨fun _ => .ok "IMG", fun _ => .error "no face detected",
    fun _ _ => .ok ⟨false, none⟩, "deadbeef", true⟩

/-- An empty students directory. -/
def fsEmpty : FS := fun _ => none

/-- A students directory holding one reference image, for a_at_b_c. -/
def fsWithRef : FS := fun p => if p = "students/a_at_b_c.jpg" then some "REF" else none

/- ------------------------------------------------------------------ -/
/-  Claims                                                             -/
/- ------------------------------------------------------------------ -/

/-- Claim C8: cleanup_old_files removes exactly the files whose names start
with temp_ and whose mtime is older than MAX_FILE_AGE_DAYS * 86400 seconds
before now; every other file of the students directory is kept unchanged. -/
theorem claim_C8 (now : ℚ) (dir : List (String × ℚ)) (f : String × ℚ) :
    f ∈ cleanup_old_files now dir ↔
      (f ∈ dir ∧
        ¬(pyStartsWith f.1 "temp_" = true ∧
          f.2 < now - (MAX_FILE_AGE_DAYS : ℚ) * 86400)) := by
  rw [cleanup_old_files, List.mem_filter]
  constructor
  · rintro ⟨h1, h2⟩
    refine ⟨h1, ?_⟩
    rintro ⟨ha, hb⟩
    rw [ha] at h2
    simp [hb] at h2
  · rintro ⟨h1, h2⟩
    refine ⟨h1, ?_⟩
    by_cases ha : pyStartsWith f.1 "temp_" = true
    · have hb : ¬(f.2 < now - (MAX_FILE_AGE_DAYS : ℚ) * 86400) :=
        fun hb => h2 ⟨ha, hb⟩
      simp [ha, hb]
    · rw [Bool.not_eq_true] at ha
      simp [ha]

/-- Claim C8 as stated is refuted on its blanket reference-image part: a
sanitized email may itself begin with temp_ — the email temp_a@b.c yields the
reference file temp_a_at_b_c.jpg — and then the registered reference image
matches the temp_ prefix test of cleanup_old_files and is removed once its
mtime is older than the cutoff, here in a directory holding only that file. -/
theorem claim_C8_counterexample :
    sanitize_email "temp_a@b.c" = "temp_a_at_b_c" ∧
    registeredPath (sanitize_email "temp_a@b.c") =
      STUDENTS_DIR ++ "/" ++ ("temp_a_at_b_c.jpg" : String) ∧
    (("temp_a_at_b_c.jpg" : String), (0 : ℚ)) ∈
      ([(("temp_a_at_b_c.jpg" : String), (0 : ℚ))] : List (String × ℚ)) ∧
    cleanup_old_files 10000000 [(("temp_a_at_b_c.jpg" : String), (0 : ℚ))] = [] := by
  have hold : (0 : ℚ) < 10000000 - (MAX_FILE_AGE_DAYS : ℚ) * 86400 := by
    norm_num [MAX_FILE_AGE_DAYS]
  have hpre : pyStartsWith "temp_a_at_b_c.jpg" "temp_" = true := by decide
  refine ⟨by decide, by decide, by simp, ?_⟩
  simp [cleanup_old_files, List.filter_cons, List.filter_nil, hpre,
    decide_eq_true hold]
  norm_num [MAX_FILE_AGE_DAYS]

/-- Claim C9: sanitize_email is not injective: the distinct emails a@b.c and
a_at_b_c sanitize to the same filename, hence share the same reference path
and are indistinguishable to check_email on every file system. -/
theorem claim_C9 :
    sanitize_email "a@b.c" = sanitize_email "a_at_b_c" ∧
    ("a@b.c" : String) ≠ "a_at_b_c" ∧
    registeredPath (sanitize_email "a@b.c") = registeredPath (sanitize_email "a_at_b_c") ∧
    ∀ fs : FS, check_email fs (some "a@b.c") = check_email fs (some "a_at_b_c") := by
  refine ⟨by decide, by decide, by decide, fun fs => ?_⟩
  simp only [check_email, Option.getD_some]
  rw [if_neg (by decide), if_neg (by decide)]
  have h : registeredPath (sanitize_email (pyStripLower "a@b.c")) =
      registeredPath (sanitize_email (pyStripLower "a_at_b_c")) := by decide
  rw [h]

/-- Claim C10: dashboard renders the page with the session email exactly when
the logged_in session key is truthy, otherwise flashes a log-in-required error
and redirects home; logout clears the whole session, after which dashboard
redirects home. -/
theorem claim_C10 (sess : SessionState) :
    (dashboard sess = (.render sess.email, []) ∨
      dashboard sess = (.redirectHome, [.loginRequired])) ∧
    (dashboard sess = (.render sess.email, []) ↔ sess.logged_in = some true) ∧
    (logout sess).1 = SessionState.clear ∧
    dashboard (logout sess).1 = (.redirectHome, [.loginRequired]) := by
  rcases sess with ⟨lin, em, perm⟩
  cases lin with
  | none => simp [dashboard, logout, truthy, SessionState.clear]
  | some b => cases b <;> simp [dashboard, logout, truthy, SessionState.clear]

/-- Claim C1: for a login submission with a non-empty email, a decodable
image in which exactly one face is detected and a stored reference for the
sanitized email, submit performs the 1:1 comparison through the external
verify call, logs the user in (session flag set and dashboard redirect)
exactly when the verify result's verified field is true, and on a false
result leaves the session unchanged and flashes a similarity of
max(0, (1 - distance) * 100) percent. -/
theorem claim_C1 (env : Env) (fs : FS) (sess : SessionState)
    (emailOpt imageDataOpt : Option String) (email content ref : String)
    (r : VerifyResult)
    (hemail : pyStripLower (emailOpt.getD "") = email)
    (hne : email ≠ "")
    (hsave : save_base64_image env.b64decode (imageDataOpt.getD "") = .saved content)
    (hface : env.extractFacesCount content = .ok 1)
    (href : fs (registeredPath (sanitize_email email)) = some ref)
    (hverify : env.verify content ref = .ok r) :
    Event.verifyCall ∈ (submit env fs sess (some "login") emailOpt imageDataOpt).trace ∧
    (((submit env fs sess (some "login") emailOpt imageDataOpt).redirect = .dashboard ∧
      (submit env fs sess (some "login") emailOpt imageDataOpt).sess.logged_in = some true)
      ↔ r.verified = true) ∧
    (r.verified = false →
      (submit env fs sess (some "login") emailOpt imageDataOpt).sess = sess ∧
      (submit env fs sess (some "login") emailOpt imageDataOpt).flashes =
        [.notRecognized (max 0 ((1 - r.distance.getD 1) * 100))]) := by
  rw [submit_login_run env fs sess emailOpt imageDataOpt email content hemail hne hsave hface]
  simp only [href, hverify]
  cases hrv : r.verified with
  | true => simp [hrv]
  | false => simp [hrv]

/-- Claim C2: a register submission with a non-empty email, a decodable image
with exactly one detected face and no stored reference enrolls the user: the
uploaded photo content ends up stored at students/<sanitize_email(email)>.jpg,
the temp file is gone (moved), no other path changes, and the request
succeeds into the dashboard. -/
theorem claim_C2 (env : Env) (fs : FS) (sess : SessionState)
    (emailOpt imageDataOpt : Option String) (email content : String)
    (hemail : pyStripLower (emailOpt.getD "") = email)
    (hne : email ≠ "")
    (hsave : save_base64_image env.b64decode (imageDataOpt.getD "") = .saved content)
    (hface : env.extractFacesCount content = .ok 1)
    (href : fs (registeredPath (sanitize_email email)) = none) :
    (submit env fs sess (some "register") emailOpt imageDataOpt).fs
      (registeredPath (sanitize_email email)) = some content ∧
    (submit env fs sess (some "register") emailOpt imageDataOpt).fs
      (tempPath (sanitize_email email) env.urandomHex) = none ∧
    (∀ p, p ≠ registeredPath (sanitize_email email) →
      p ≠ tempPath (sanitize_email email) env.urandomHex →
      (submit env fs sess (some "register") emailOpt imageDataOpt).fs p = fs p) ∧
    (submit env fs sess (some "register") emailOpt imageDataOpt).redirect = .dashboard ∧
    (submit env fs sess (some "register") emailOpt imageDataOpt).trace =
      [.decodeImage, .writeTemp, .extractFacesCall, .replaceFile, .setSession] := by
  have hne2 := registeredPath_ne_tempPath (sanitize_email email) env.urandomHex
  rw [submit_register_run env fs sess emailOpt imageDataOpt email content hemail hne hsave hface,
    href]
  refine ⟨?_, ?_, ?_, ?_, ?_⟩
  · simp [FS.set]
  · simp [FS.set, FS.erase, Ne.symm hne2]
  · intro p hp1 hp2
    simp [FS.set, FS.erase, hp1, hp2]
  · simp
  · simp

/-- Claim C5: exceptions from the face-recognition backend are caught, never
propagated: a raising extract_faces call makes single_face_present return
false and the request end in the flashed detection error, and a raising
verify call makes submit flash an authentication error and redirect home
with the session untouched. -/
theorem claim_C5 (env1 env2 : Env) (fsA fsB : FS) (sess1 sess2 : SessionState)
    (mode1 emailOpt1 imageOpt1 emailOpt2 imageOpt2 : Option String)
    (email1 content1 email2 content2 ref msg1 msg2 : String)
    (hemail1 : pyStripLower (emailOpt1.getD "") = email1)
    (hne1 : email1 ≠ "")
    (hmode1 : mode1 = some "login" ∨ mode1 = some "register")
    (hsave1 : save_base64_image env1.b64decode (imageOpt1.getD "") = .saved content1)
    (hfaceErr : env1.extractFacesCount content1 = .error msg1)
    (hemail2 : pyStripLower (emailOpt2.getD "") = email2)
    (hne2 : email2 ≠ "")
    (hsave2 : save_base64_image env2.b64decode (imageOpt2.getD "") = .saved content2)
    (hface2 : env2.extractFacesCount content2 = .ok 1)
    (href2 : fsB (registeredPath (sanitize_email email2)) = some ref)
    (hver : env2.verify content2 ref = .error msg2) :
    (∀ m : String, single_face_present (.error m) = false) ∧
    ((submit env1 fsA sess1 mode1 emailOpt1 imageOpt1).flashes = [.faceDetectError] ∧
      (submit env1 fsA sess1 mode1 emailOpt1 imageOpt1).redirect = .home) ∧
    ((submit env2 fsB sess2 (some "login") emailOpt2 imageOpt2).flashes = [.authError] ∧
      (submit env2 fsB sess2 (some "login") emailOpt2 imageOpt2).redirect = .home ∧
      (submit env2 fsB sess2 (some "login") emailOpt2 imageOpt2).sess = sess2) := by
  have hface1 : single_face_present (env1.extractFacesCount content1) = false := by
    rw [hfaceErr]; rfl
  refine ⟨fun m => rfl, ?_, ?_⟩
  · rw [submit_noface_run env1 fsA sess1 mode1 emailOpt1 imageOpt1 email1 content1
      hemail1 hne1 hmode1 hsave1 hface1]
    exact ⟨rfl, rfl⟩
  · rw [submit_login_run env2 fsB sess2 emailOpt2 imageOpt2 email2 content2
      hemail2 hne2 hsave2 hface2]
    simp only [href2, hver]
    simp

/-- Claim C7: the file store is keyed by sanitized email consistently:
check_email answers 400 exactly when the stripped email is empty and
otherwise reports registered exactly when the reference file exists, and a
login for an email with no stored reference is rejected with the
register-first error without ever invoking the external verify call. -/
theorem claim_C7 (fs fsB : FS) (env : Env) (sess : SessionState)
    (emailOpt emailOpt2 imageDataOpt : Option String) (email content : String)
    (hemail : pyStripLower (emailOpt2.getD "") = email)
    (hne : email ≠ "")
    (hsave : save_base64_image env.b64decode (imageDataOpt.getD "") = .saved content)
    (hface : env.extractFacesCount content = .ok 1)
    (href : fsB (registeredPath (sanitize_email email)) = none) :
    (check_email fs emailOpt = .badRequest ↔ pyStripLower (emailOpt.getD "") = "") ∧
    (pyStripLower (emailOpt.getD "") ≠ "" →
      (check_email fs emailOpt = .ok true ↔
        (fs (registeredPath (sanitize_email (pyStripLower (emailOpt.getD ""))))).isSome
          = true)) ∧
    ((submit env fsB sess (some "login") emailOpt2 imageDataOpt).flashes =
        [.noRegisteredFace] ∧
      (submit env fsB sess (some "login") emailOpt2 imageDataOpt).redirect = .home ∧
      Event.verifyCall ∉ (submit env fsB sess (some "login") emailOpt2 imageDataOpt).trace)
    := by
  refine ⟨?_, ?_, ?_⟩
  · by_cases hemp : pyStripLower (emailOpt.getD "") = "" <;> simp [check_email, hemp]
  · intro hemp
    simp [check_email, hemp]
  · rw [submit_login_run env fsB sess emailOpt2 imageDataOpt email content
      hemail hne hsave hface]
    simp only [href]
    simp

/-- Claim C4: whenever the temp image file was successfully written (the
request passed the field guard and decoding succeeded) and the best-effort
removal itself does not fail, the temp file no longer exists when request
handling finishes — on every exit path of the try/finally, for either mode
and any oracle behaviour. -/
theorem claim_C4 (env : Env) (fs : FS) (sess : SessionState)
    (mode emailOpt imageDataOpt : Option String) (email content : String)
    (hemail : pyStripLower (emailOpt.getD "") = email)
    (hne : email ≠ "")
    (hmode : mode = some "login" ∨ mode = some "register")
    (hsave : save_base64_image env.b64decode (imageDataOpt.getD "") = .saved content)
    (hrm : env.removeOk = true) :
    (submit env fs sess mode emailOpt imageDataOpt).fs
      (tempPath (sanitize_email email) env.urandomHex) = none := by
  have hne2 := registeredPath_ne_tempPath (sanitize_email email) env.urandomHex
  cases hb : single_face_present (env.extractFacesCount content) with
  | false =>
    rw [submit_noface_run env fs sess mode emailOpt imageDataOpt email content
      hemail hne hmode hsave hb]
    simp [hrm, FS.erase]
  | true =>
    have hface := single_face_present_eq_ok hb
    rcases hmode with hm | hm
    · subst hm
      cases href : fs (registeredPath (sanitize_email email)) with
      | none =>
        rw [submit_login_run env fs sess emailOpt imageDataOpt email content
          hemail hne hsave hface]
        simp [href, hrm, FS.erase]
      | some ref =>
        rw [submit_login_run env fs sess emailOpt imageDataOpt email content
          hemail hne hsave hface]
        cases hv : env.verify content ref with
        | error e => simp [href, hv, hrm, FS.erase]
        | ok r =>
          cases hrv : r.verified <;> simp [href, hv, hrv, hrm, FS.erase]
    · subst hm
      rw [submit_register_run env fs sess emailOpt imageDataOpt email content
        hemail hne hsave hface]
      cases href : (fs (registeredPath (sanitize_email email))).isSome with
      | true => simp [href, hrm, FS.erase]
      | false => simp [href, hrm, FS.set, FS.erase, Ne.symm hne2]

/-- Claim C6: the session keys after submit: exactly on the successful
outcomes (the ones that redirect to the dashboard) the session becomes
logged_in = true with the normalized submitted email (and permanent set);
on every other outcome the session is exactly the incoming one, so neither
key is set. -/
theorem claim_C6 (env : Env) (fs : FS) (sess : SessionState)
    (mode emailOpt imageDataOpt : Option String) :
    (submit env fs sess mode emailOpt imageDataOpt).sess =
      (if (submit env fs sess mode emailOpt imageDataOpt).redirect = .dashboard
       then ⟨some true, some (pyStripLower (emailOpt.getD "")), true⟩
       else sess) := by
  simp only [submit]
  repeat' split
  all_goals simp_all

/-- On every successful request the trace is one of exactly two shapes,
determined by the mode. -/
lemma submit_success_shape (env : Env) (fs : FS) (sess : SessionState)
    (mode emailOpt imageDataOpt : Option String)
    (h : (submit env fs sess mode emailOpt imageDataOpt).redirect = .dashboard) :
    (mode = some "register" ∧ (submit env fs sess mode emailOpt imageDataOpt).trace =
      [.decodeImage, .writeTemp, .extractFacesCall, .replaceFile, .setSession]) ∨
    (mode = some "login" ∧ (submit env fs sess mode emailOpt imageDataOpt).trace =
      [.decodeImage, .writeTemp, .extractFacesCall, .verifyCall, .setSession,
        .removeTempAttempt]) := by
  by_cases hg : (pyStripLower (emailOpt.getD "") = "" ∨
      (mode ≠ some "login" ∧ mode ≠ some "register") ∨ imageDataOpt.getD "" = "")
  · exfalso
    simp only [submit] at h
    rw [if_pos hg] at h
    simp at h
  · push_neg at hg
    obtain ⟨hne, hmo, himg⟩ := hg
    have hmode : mode = some "login" ∨ mode = some "register" := by
      by_cases hl : mode = some "login"
      · exact Or.inl hl
      · exact Or.inr (hmo hl)
    cases hsv : save_base64_image env.b64decode (imageDataOpt.getD "") with
    | invalidFormat =>
      rw [submit_invalid_run env fs sess mode emailOpt imageDataOpt _ rfl hne hmode himg hsv]
        at h
      simp at h
    | decodeFailed =>
      rw [submit_decodefail_run env fs sess mode emailOpt imageDataOpt _ rfl hne hmode himg
        hsv] at h
      simp at h
    | saved content =>
      cases hb : single_face_present (env.extractFacesCount content) with
      | false =>
        rw [submit_noface_run env fs sess mode emailOpt imageDataOpt _ content rfl hne hmode
          hsv hb] at h
        simp at h
      | true =>
        have hface := single_face_present_eq_ok hb
        rcases hmode with hm | hm
        · subst hm
          cases href : fs (registeredPath (sanitize_email (pyStripLower (emailOpt.getD ""))))
            with
          | none =>
            rw [submit_login_run env fs sess emailOpt imageDataOpt _ content rfl hne hsv
              hface] at h
            simp [href] at h
          | some ref =>
            rw [submit_login_run env fs sess emailOpt imageDataOpt _ content rfl hne hsv
              hface] at h ⊢
            cases hv : env.verify content ref with
            | error e => simp [href, hv] at h
            | ok r =>
              cases hrv : r.verified with
              | true =>
                right
                refine ⟨rfl, ?_⟩
                simp [href, hv, hrv]
              | false => simp [href, hv, hrv] at h
        · subst hm
          rw [submit_register_run env fs sess emailOpt imageDataOpt _ content rfl hne hsv
            hface] at h ⊢
          cases href : (fs (registeredPath
              (sanitize_email (pyStripLower (emailOpt.getD ""))))).isSome with
          | true => simp [href] at h
          | false =>
            left
            refine ⟨rfl, ?_⟩
            simp [href]

/-- Claim C3 as stated is refuted on a concrete successful login: the
session flag is set before the only step-5 file-system update of that path
(the temp-file removal performed by the finally block), so "update one of
the two file-system paths, and only then set the session flag" fails. -/
theorem claim_C3_counterexample :
    (submit envAccept fsWithRef SessionState.clear (some "login") (some "a@b.c")
      (some "h,AAAA")).redirect = .dashboard ∧
    ¬ precededBy (submit envAccept fsWithRef SessionState.clear (some "login")
      (some "a@b.c") (some "h,AAAA")).trace isSetSession isFileUpdate := by
  constructor
  · decide
  · decide

/-- Claim C3 (amended): on every successful request the handler decodes,
writes the temp file and calls the face API in that order, neither the
session flag nor any step-5 file update (reference write or temp removal)
precedes the face-API calls; on successful registration the reference-file
update does precede the session flag, while on successful login the only
file update after verification — the temp cleanup — follows the session
flag rather than preceding it. -/
theorem claim_C3_amended (env : Env) (fs : FS) (sess : SessionState)
    (mode emailOpt imageDataOpt : Option String)
    (h : (submit env fs sess mode emailOpt imageDataOpt).redirect = .dashboard) :
    (submit env fs sess mode emailOpt imageDataOpt).trace.take 3 =
      [.decodeImage, .writeTemp, .extractFacesCall] ∧
    precededBy (submit env fs sess mode emailOpt imageDataOpt).trace
      (fun e => isSetSession e || isFileUpdate e) isFaceAPI ∧
    (mode = some "register" →
      precededBy (submit env fs sess mode emailOpt imageDataOpt).trace
        isSetSession isReplaceFile) ∧
    (mode = some "login" →
      precededBy (submit env fs sess mode emailOpt imageDataOpt).trace
        isRemoveTemp isSetSession) := by
  rcases submit_success_shape env fs sess mode emailOpt imageDataOpt h with
    ⟨hm, ht⟩ | ⟨hm, ht⟩ <;> rw [ht] <;> subst hm
  · exact ⟨by decide, by decide, fun _ => by decide, fun h2 => by simp at h2⟩
  · exact ⟨by decide, by decide, fun h2 => by simp at h2, fun _ => by decide⟩

/-- Witness for C1: a concrete rejected login (verified false, distance 1/2)
against a stored reference, discharging every hypothesis. -/
theorem claim_C1_witness :
    pyStripLower ((some "a@b.c" : Option String).getD "") = "a@b.c" ∧
    ("a@b.c" : String) ≠ "" ∧
    save_base64_image envReject.b64decode ((some "h,AAAA" : Option String).getD "") =
      .saved "IMG" ∧
    envReject.extractFacesCount "IMG" = .ok 1 ∧
    fsWithRef (registeredPath (sanitize_email "a@b.c")) = some "REF" ∧
    envReject.verify "IMG" "REF" = .ok ⟨false, some (1/2)⟩ ∧
    (Event.verifyCall ∈ (submit envReject fsWithRef SessionState.clear (some "login")
        (some "a@b.c") (some "h,AAAA")).trace ∧
      (((submit envReject fsWithRef SessionState.clear (some "login") (some "a@b.c")
          (some "h,AAAA")).redirect = .dashboard ∧
        (submit envReject fsWithRef SessionState.clear (some "login") (some "a@b.c")
          (some "h,AAAA")).sess.logged_in = some true) ↔ false = true) ∧
      (false = false →
        (submit envReject fsWithRef SessionState.clear (some "login") (some "a@b.c")
          (some "h,AAAA")).sess = SessionState.clear ∧
        (submit envReject fsWithRef SessionState.clear (some "login") (some "a@b.c")
          (some "h,AAAA")).flashes =
          [.notRecognized (max 0 ((1 - (1/2 : ℚ)) * 100))])) :=
  ⟨by decide, by decide, rfl, rfl, by decide, rfl,
    claim_C1 envReject fsWithRef SessionState.clear (some "a@b.c") (some "h,AAAA")
      "a@b.c" "IMG" "REF" ⟨false, some (1/2)⟩ (by decide) (by decide) rfl rfl
      (by decide) rfl⟩

/-- Witness for C2: a concrete fresh registration. -/
theorem claim_C2_witness :
    pyStripLower ((some "x@y.z" : Option String).getD "") = "x@y.z" ∧
    ("x@y.z" : String) ≠ "" ∧
    save_base64_image envAccept.b64decode ((some "h,AAAA" : Option String).getD "") =
      .saved "IMG" ∧
    envAccept.extractFacesCount "IMG" = .ok 1 ∧
    fsEmpty (registeredPath (sanitize_email "x@y.z")) = none ∧
    ((submit envAccept fsEmpty SessionState.clear (some "register") (some "x@y.z")
        (some "h,AAAA")).fs (registeredPath (sanitize_email "x@y.z")) = some "IMG" ∧
      (submit envAccept fsEmpty SessionState.clear (some "register") (some "x@y.z")
        (some "h,AAAA")).fs (tempPath (sanitize_email "x@y.z") envAccept.urandomHex)
        = none ∧
      (∀ p, p ≠ registeredPath (sanitize_email "x@y.z") →
        p ≠ tempPath (sanitize_email "x@y.z") envAccept.urandomHex →
        (submit envAccept fsEmpty SessionState.clear (some "register") (some "x@y.z")
          (some "h,AAAA")).fs p = fsEmpty p) ∧
      (submit envAccept fsEmpty SessionState.clear (some "register") (some "x@y.z")
        (some "h,AAAA")).redirect = .dashboard ∧
      (submit envAccept fsEmpty SessionState.clear (some "register") (some "x@y.z")
        (some "h,AAAA")).trace =
        [.decodeImage, .writeTemp, .extractFacesCall, .replaceFile, .setSession]) :=
  ⟨by decide, by decide, rfl, rfl, rfl,
    claim_C2 envAccept fsEmpty SessionState.clear (some "x@y.z") (some "h,AAAA")
      "x@y.z" "IMG" (by decide) (by decide) rfl rfl rfl⟩

/-- Witness for C4: a concrete rejected login; the temp file is gone
afterwards. -/
theorem claim_C4_witness :
    pyStripLower ((some "a@b.c" : Option String).getD "") = "a@b.c" ∧
    ("a@b.c" : String) ≠ "" ∧
    ((some "login" : Option String) = some "login" ∨
      (some "login" : Option String) = some "register") ∧
    save_base64_image envReject.b64decode ((some "h,AAAA" : Option String).getD "") =
      .saved "IMG" ∧
    envReject.removeOk = true ∧
    (submit envReject fsWithRef SessionState.clear (some "login") (some "a@b.c")
      (some "h,AAAA")).fs (tempPath (sanitize_email "a@b.c") envReject.urandomHex)
      = none :=
  ⟨by decide, by decide, Or.inl rfl, rfl, rfl,
    claim_C4 envReject fsWithRef SessionState.clear (some "login") (some "a@b.c")
      (some "h,AAAA") "a@b.c" "IMG" (by decide) (by decide) (Or.inl rfl) rfl rfl⟩

/-- Witness for C5: one request where extraction raises and one login where
verification raises. -/
theorem claim_C5_witness :
    pyStripLower ((some "a@b.c" : Option String).getD "") = "a@b.c" ∧
    ("a@b.c" : String) ≠ "" ∧
    ((some "login" : Option String) = some "login" ∨
      (some "login" : Option String) = some "register") ∧
    save_base64_image envNoFace.b64decode ((some "h,AAAA" : Option String).getD "") =
      .saved "IMG" ∧
    envNoFace.extractFacesCount "IMG" = .error "no face detected" ∧
    save_base64_image envVerifyBoom.b64decode ((some "h,AAAA" : Option String).getD "") =
      .saved "IMG" ∧
    envVerifyBoom.extractFacesCount "IMG" = .ok 1 ∧
    fsWithRef (registeredPath (sanitize_email "a@b.c")) = some "REF" ∧
    envVerifyBoom.verify "IMG" "REF" = .error "boom" ∧
    ((∀ m : String, single_face_present (.error m) = false) ∧
      ((submit envNoFace fsEmpty SessionState.clear (some "login") (some "a@b.c")
          (some "h,AAAA")).flashes = [.faceDetectError] ∧
        (submit envNoFace fsEmpty SessionState.clear (some "login") (some "a@b.c")
          (some "h,AAAA")).redirect = .home) ∧
      ((submit envVerifyBoom fsWithRef SessionState.clear (some "login") (some "a@b.c")
          (some "h,AAAA")).flashes = [.authError] ∧
        (submit envVerifyBoom fsWithRef SessionState.clear (some "login") (some "a@b.c")
          (some "h,AAAA")).redirect = .home ∧
        (submit envVerifyBoom fsWithRef SessionState.clear (some "login") (some "a@b.c")
          (some "h,AAAA")).sess = SessionState.clear)) :=
  ⟨by decide, by decide, Or.inl rfl, rfl, rfl, rfl, rfl, by decide, rfl,
    claim_C5 envNoFace envVerifyBoom fsEmpty fsWithRef SessionState.clear
      SessionState.clear (some "login") (some "a@b.c") (some "h,AAAA") (some "a@b.c")
      (some "h,AAAA") "a@b.c" "IMG" "a@b.c" "IMG" "REF" "no face detected" "boom"
      (by decide) (by decide) (Or.inl rfl) rfl rfl (by decide) (by decide) rfl rfl
      (by decide) rfl⟩

/-- Witness for C7: check_email on a registered email, and a login against an
empty store. -/
theorem claim_C7_witness :
    pyStripLower ((some "x@y.z" : Option String).getD "") = "x@y.z" ∧
    ("x@y.z" : String) ≠ "" ∧
    save_base64_image envAccept.b64decode ((some "h,AAAA" : Option String).getD "") =
      .saved "IMG" ∧
    envAccept.extractFacesCount "IMG" = .ok 1 ∧
    fsEmpty (registeredPath (sanitize_email "x@y.z")) = none ∧
    ((check_email fsWithRef (some "a@b.c") = .badRequest ↔
        pyStripLower ((some "a@b.c" : Option String).getD "") = "") ∧
      (pyStripLower ((some "a@b.c" : Option String).getD "") ≠ "" →
        (check_email fsWithRef (some "a@b.c") = .ok true ↔
          (fsWithRef (registeredPath (sanitize_email
            (pyStripLower ((some "a@b.c" : Option String).getD ""))))).isSome = true)) ∧
      ((submit envAccept fsEmpty SessionState.clear (some "login") (some "x@y.z")
          (some "h,AAAA")).flashes = [.noRegisteredFace] ∧
        (submit envAccept fsEmpty SessionState.clear (some "login") (some "x@y.z")
          (some "h,AAAA")).redirect = .home ∧
        Event.verifyCall ∉ (submit envAccept fsEmpty SessionState.clear (some "login")
          (some "x@y.z") (some "h,AAAA")).trace)) :=
  ⟨by decide, by decide, rfl, rfl, rfl,
    claim_C7 fsWithRef fsEmpty envAccept SessionState.clear (some "a@b.c")
      (some "x@y.z") (some "h,AAAA") "x@y.z" "IMG" (by decide) (by decide) rfl rfl rfl⟩

/-- Witness for the amended C3: a concrete successful registration. -/
theorem claim_C3_amended_witness :
    (submit envAccept fsEmpty SessionState.clear (some "register") (some "x@y.z")
      (some "h,AAAA")).redirect = .dashboard ∧
    ((submit envAccept fsEmpty SessionState.clear (some "register") (some "x@y.z")
        (some "h,AAAA")).trace.take 3 =
      [.decodeImage, .writeTemp, .extractFacesCall] ∧
      precededBy (submit envAccept fsEmpty SessionState.clear (some "register")
        (some "x@y.z") (some "h,AAAA")).trace
        (fun e => isSetSession e || isFileUpdate e) isFaceAPI ∧
      ((some "register" : Option String) = some "register" →
        precededBy (submit envAccept fsEmpty SessionState.clear (some "register")
          (some "x@y.z") (some "h,AAAA")).trace isSetSession isReplaceFile) ∧
      ((some "register" : Option String) = some "login" →
        precededBy (submit envAccept fsEmpty SessionState.clear (some "register")
          (some "x@y.z") (some "h,AAAA")).trace isRemoveTemp isSetSession)) :=
  ⟨by decide,
    claim_C3_amended envAccept fsEmpty SessionState.clear (some "register")
      (some "x@y.z") (some "h,AAAA") (by decide)⟩

end FaceAuth
